import Mathlib

/-!
Verification of the ServerStatusBot authorization and dispatch core
(`bot.py`), shallowly embedded in Lean 4.

The permission document (`permissions.json`), the Docker backend and the
Discord context are modelled as explicit data; each bot command body is
translated to a pure function returning its reply fields and audit-log
entries, with `Option` modelling an uncaught Python exception (`none`).
-/

namespace Bot

/-- One server entry of the permission document: the `"name"` key plus the
per-action identity lists, kept as an association list in JSON key order.
A key absent from the list models a key absent from the JSON object. -/
structure ServerEntry where
  name : String
  perms : List (String × List String)
deriving DecidableEq

/-- The permission document: `json_permissions["users"]["admins"]` and
`json_permissions["servers"]`. -/
structure PermissionDocument where
  admins : List String
  servers : List ServerEntry
deriving DecidableEq

/-- Python `dict` key lookup on an association list (`server[key]` /
`key in server.keys()`): `none` models a `KeyError`. -/
def lookupKey : List (String × List String) → String → Option (List String)
  | [], _ => none
  | (k, v) :: rest, key => if k = key then some v else lookupKey rest key

/-- A Docker container as seen by the bot: its name, its `status`
attribute, and the outputs of `exec_run`, keyed by command string. -/
structure Container where
  name : String
  status : String
  execOut : List (String × String)
deriving DecidableEq

/-- `container.exec_run(cmd).output.decode('utf-8')`. -/
def Container.exec (c : Container) (cmd : String) : String :=
  (c.execOut.lookup cmd).getD ""

/-- The Docker client: `docker_client.containers.list(all=True)`. -/
structure DockerBackend where
  containers : List Container
deriving DecidableEq

/-- The names of all containers known to the backend
(`[container.name for container in docker_client.containers.list(all=True)]`). -/
def DockerBackend.names (b : DockerBackend) : List String :=
  b.containers.map (·.name)

/-- `docker_client.containers.get(server)`: `none` models
`docker.errors.NotFound`. -/
def DockerBackend.get (b : DockerBackend) (s : String) : Option Container :=
  b.containers.find? (fun c => c.name == s)

/-- The non-admin branch of `perm_check`:
`[server["name"] for server in json_permissions["servers"]
  if str(ctx.author.id) in server[ctx.command.name]]`.
`server[ctx.command.name]` is a plain indexing, so an entry lacking the
command's key aborts the comprehension with a `KeyError` (`none`). -/
def authorized_names (authorId cmd : String) : List ServerEntry → Option (List String)
  | [] => some []
  | s :: rest =>
    match lookupKey s.perms cmd with
    | none => none
    | some ids =>
      (authorized_names authorId cmd rest).map
        (fun tail => if authorId ∈ ids then s.name :: tail else tail)

/-- `perm_check(ctx)` (bot.py lines 72–76): admins get the name of every
container the backend knows, everyone else gets the servers whose entry
lists them under the invoked command's key. -/
def perm_check (doc : PermissionDocument) (backend : DockerBackend)
    (authorId cmd : String) : Option (List String) :=
  if authorId ∈ doc.admins then some backend.names
  else authorized_names authorId cmd doc.servers

/-- `server in perm_check(ctx)`: the per-target authorization test, `none`
when `perm_check` itself raises. -/
def is_authorized (doc : PermissionDocument) (backend : DockerBackend)
    (authorId cmd target : String) : Option Bool :=
  (perm_check doc backend authorId cmd).map (fun l => decide (target ∈ l))

end Bot

namespace Bot

/-- **C1.** An identity in `admins` is authorized for every action on every
target the backend knows, and `perm_check` returns the backend's full
container-name universe — independently of `servers`, so targets with no
`ServerEntry` are included. -/
theorem admin_universe_authorized (doc : PermissionDocument) (backend : DockerBackend)
    (authorId cmd : String) (h : authorId ∈ doc.admins) :
    perm_check doc backend authorId cmd = some backend.names ∧
    ∀ t ∈ backend.names, is_authorized doc backend authorId cmd t = some true := by
  constructor
  · simp [perm_check, h]
  · intro t ht
    simp [is_authorized, perm_check, h, ht]

/-- Witness for C1: the admin `"1"` is authorized for container `"ghost"`,
which has no `ServerEntry` at all (`servers = []`). -/
theorem admin_universe_authorized_witness :
    ("1" ∈ (PermissionDocument.mk ["1"] []).admins) ∧
    perm_check (PermissionDocument.mk ["1"] [])
        (DockerBackend.mk [Container.mk "ghost" "running" []]) "1" "kill"
      = some ["ghost"] ∧
    is_authorized (PermissionDocument.mk ["1"] [])
        (DockerBackend.mk [Container.mk "ghost" "running" []]) "1" "kill" "ghost"
      = some true := by
  refine ⟨by decide, ?_, ?_⟩
  · exact (admin_universe_authorized (PermissionDocument.mk ["1"] [])
      (DockerBackend.mk [Container.mk "ghost" "running" []]) "1" "kill" (by decide)).1
  · exact (admin_universe_authorized (PermissionDocument.mk ["1"] [])
      (DockerBackend.mk [Container.mk "ghost" "running" []]) "1" "kill" (by decide)).2
      "ghost" (by decide)

end Bot

namespace Bot

/-- Helper: when every entry has the `cmd` key, the non-admin branch of
`perm_check` succeeds and returns exactly the names of the entries whose
`cmd` list contains the identity. -/
theorem authorized_names_eq_filter (authorId cmd : String) (ss : List ServerEntry)
    (hkeys : ∀ s ∈ ss, (lookupKey s.perms cmd).isSome) :
    authorized_names authorId cmd ss
      = some ((ss.filter
          (fun s => decide (authorId ∈ (lookupKey s.perms cmd).getD []))).map (·.name)) := by
  induction ss with
  | nil => rfl
  | cons s rest ih =>
    obtain ⟨ids, hids⟩ := Option.isSome_iff_exists.mp (hkeys s (by simp))
    have htail := ih (fun t ht => hkeys t (by simp [ht]))
    by_cases hmem : authorId ∈ ids
    · simp [authorized_names, hids, htail, List.filter_cons, hmem]
    · simp [authorized_names, hids, htail, List.filter_cons, hmem]

/-- **C2 (counterexample).** The claim says a `ServerEntry` lacking the
action key contributes the empty set and never causes an error; but
`perm_check` indexes `server[ctx.command.name]` directly, so for the
non-admin `"7"` and an entry with no `"status"` key the lookup raises a
`KeyError` (modelled `none`) instead of returning the claimed `some []`. -/
theorem missing_action_key_errors_cex :
    perm_check
        (PermissionDocument.mk ["1"] [ServerEntry.mk "alpha" [("restart", ["7"])]])
        (DockerBackend.mk []) "7" "status" = none ∧
    ("7" ∉ (PermissionDocument.mk ["1"]
        [ServerEntry.mk "alpha" [("restart", ["7"])]]).admins) ∧
    perm_check
        (PermissionDocument.mk ["1"] [ServerEntry.mk "alpha" [("restart", ["7"])]])
        (DockerBackend.mk []) "7" "status" ≠ some [] := by
  refine ⟨by decide, by decide, by decide⟩

/-- **C2 (amended).** For a non-admin identity, *provided every entry has
the action key*, `perm_check` returns exactly the names of the servers
whose entry's action list contains the identity; an entry lacking the key
instead aborts the whole check with a `KeyError`. -/
theorem nonadmin_authorized_targets_exact (doc : PermissionDocument)
    (backend : DockerBackend) (authorId cmd : String)
    (hna : authorId ∉ doc.admins)
    (hkeys : ∀ s ∈ doc.servers, (lookupKey s.perms cmd).isSome) :
    perm_check doc backend authorId cmd
      = some ((doc.servers.filter
          (fun s => decide (authorId ∈ (lookupKey s.perms cmd).getD []))).map (·.name)) := by
  simpa [perm_check, hna] using authorized_names_eq_filter authorId cmd doc.servers hkeys

/-- Witness for C2 (amended): the non-admin `"7"` is listed for `restart`
on `alpha` and not on `beta`, so exactly `["alpha"]` is returned. -/
theorem nonadmin_authorized_targets_exact_witness :
    perm_check
        (PermissionDocument.mk ["1"]
          [ServerEntry.mk "alpha" [("restart", ["7"])],
           ServerEntry.mk "beta" [("restart", [])]])
        (DockerBackend.mk []) "7" "restart" = some ["alpha"] := by
  have h := nonadmin_authorized_targets_exact
    (PermissionDocument.mk ["1"]
      [ServerEntry.mk "alpha" [("restart", ["7"])],
       ServerEntry.mk "beta" [("restart", [])]])
    (DockerBackend.mk []) "7" "restart" (by decide) (by decide)
  simpa using h

end Bot

namespace Bot

/-- One `embed.add_field(name=…, value=…)` of a reply. -/
structure Field where
  name : String
  value : String
deriving DecidableEq

/-- One audit-log line, as the structured data interpolated into the
message: its level and, for `log_unauthorized`, the command name, the
caller's id, the channel and the server list of that call. -/
structure LogEntry where
  category : String
  command : String
  authorId : String
  channel : String
  servers : List String
deriving DecidableEq

/-- `log_unauthorized(ctx, *servers)` (bot.py lines 44–47): one FORBIDDEN
entry naming the invoked command, the author, the channel and exactly the
servers passed to this call. -/
def log_unauthorized (command authorId channel : String)
    (servers : List String) : LogEntry :=
  LogEntry.mk "FORBIDDEN" command authorId channel servers

/-- Python `str.title()` (ASCII): the first letter of each alphabetic run
is uppercased, the rest lowercased. -/
def titleChars : Bool → List Char → List Char
  | _, [] => []
  | prev, c :: cs =>
    (if c.isAlpha then (if prev then c.toLower else c.toUpper) else c)
      :: titleChars c.isAlpha cs

/-- `s.title()` on a string. -/
def str_title (s : String) : String :=
  String.mk (titleChars false s.data)

/-- The per-target body shared by `restart`, `kill` and `start`
(bot.py lines 149–159, 169–179, 188–198): authorized and found runs the
backend action and records `success`; authorized but absent records
"Not Found/Invalid Name"; unauthorized records the same text and logs one
FORBIDDEN entry for this single target. -/
def target_step (cmdName : String) (success : Container → String)
    (auth : List String) (backend : DockerBackend)
    (authorId channel target : String) : List Field × List LogEntry :=
  if target ∈ auth then
    match backend.get target with
    | some c => ([Field.mk target (success c)], [])
    | none => ([Field.mk target "Not Found/Invalid Name"], [])
  else
    ([Field.mk target "Not Found/Invalid Name"],
     [log_unauthorized cmdName authorId channel [target]])

/-- The per-target body of the multi-target branch of `status`
(bot.py lines 100–110): like `target_step` but the unauthorized branch is
guarded by `elif not autofilled`, so an autofilled target never records a
field or a denial. -/
def status_target (auth : List String) (backend : DockerBackend)
    (authorId channel : String) (autofilled : Bool)
    (target : String) : List Field × List LogEntry :=
  if target ∈ auth then
    match backend.get target with
    | some c => ([Field.mk target (str_title c.status)], [])
    | none => ([Field.mk target "Not Found/Invalid Name"], [])
  else if autofilled then ([], [])
  else
    ([Field.mk target "Not Found/Invalid Name"],
     [log_unauthorized "status" authorId channel [target]])

/-- The per-target body of the single-target branch of `status`
(bot.py lines 116–138): a detailed report (more fields when the container
is `running`), with the same guarded unauthorized branch. -/
def status_detail_target (auth : List String) (backend : DockerBackend)
    (authorId channel : String) (autofilled : Bool)
    (target : String) : List Field × List LogEntry :=
  if target ∈ auth then
    match backend.get target with
    | some c =>
      if c.status = "running" then
        ([Field.mk "Docker Status" (str_title c.status),
          Field.mk "Server Uptime" (c.exec "uptime"),
          Field.mk "World Size (Minecraft)" (c.exec "du -h world/level.dat"),
          Field.mk "Log Tail" (c.exec "tail -n3 logs/latest.log")], [])
      else ([Field.mk "Docker Status" (str_title c.status)], [])
    | none => ([Field.mk target "Not Found/Invalid Name"], [])
  else if autofilled then ([], [])
  else
    ([Field.mk target "Not Found/Invalid Name"],
     [log_unauthorized "status" authorId channel [target]])

/-- `for server in servers:` — run the per-target body over the list,
concatenating fields and log entries in order. -/
def targets_loop (step : String → List Field × List LogEntry) :
    List String → List Field × List LogEntry
  | [] => ([], [])
  | s :: rest =>
    let r := step s
    let rs := targets_loop step rest
    (r.1 ++ rs.1, r.2 ++ rs.2)

/-- The shared dispatch of `restart`/`kill`/`start`: the loop body indexes
`perm_check(ctx)` on every iteration, so an empty target list never calls
it (and never raises), while a non-empty list propagates its `KeyError`. -/
def simple_cmd (cmdName : String) (success : Container → String)
    (doc : PermissionDocument) (backend : DockerBackend)
    (authorId channel : String) (servers : List String) :
    Option (List Field × List LogEntry) :=
  match servers with
  | [] => some ([], [])
  | _ :: _ =>
    (perm_check doc backend authorId cmdName).map
      (fun auth => targets_loop (target_step cmdName success auth backend authorId channel) servers)

/-- The `restart` command body (bot.py lines 143–160). No autofill of an
empty target list: the loop runs over `servers` exactly as given. -/
def restart_cmd (doc : PermissionDocument) (backend : DockerBackend)
    (authorId channel : String) (servers : List String) :
    Option (List Field × List LogEntry) :=
  simple_cmd "restart" (fun _ => "Restart Sent") doc backend authorId channel servers

/-- The `kill` command body (bot.py lines 164–180), likewise without
autofill. -/
def kill_cmd (doc : PermissionDocument) (backend : DockerBackend)
    (authorId channel : String) (servers : List String) :
    Option (List Field × List LogEntry) :=
  simple_cmd "kill" (fun c => "SIGKILL Sent - status is " ++ c.status)
    doc backend authorId channel servers

/-- The `start` command body (bot.py lines 184–199), likewise without
autofill. -/
def start_cmd (doc : PermissionDocument) (backend : DockerBackend)
    (authorId channel : String) (servers : List String) :
    Option (List Field × List LogEntry) :=
  simple_cmd "start" (fun c => c.status) doc backend authorId channel servers

/-- The autofill prologue of `status` (bot.py lines 90–95): an empty
target tuple is replaced by `perm_check(ctx)` with `autofilled = True`;
a non-empty tuple passes through with `autofilled = False`. -/
def status_resolve (doc : PermissionDocument) (backend : DockerBackend)
    (authorId : String) (servers : List String) : Option (List String × Bool) :=
  if servers = [] then
    (perm_check doc backend authorId "status").map (fun a => (a, true))
  else some (servers, false)

/-- The reply of one `status` invocation: the embed title, its fields and
the audit entries produced while building it. -/
structure StatusReply where
  title : String
  fields : List Field
  logs : List LogEntry
deriving DecidableEq

/-- The `status` command body (bot.py lines 87–139): autofill, then the
multi-target branch when more than one target remains, else the detailed
branch whose embed title indexes `servers[0]` — `none` models the
`IndexError` that indexing raises on an empty list. -/
def status_cmd (doc : PermissionDocument) (backend : DockerBackend)
    (authorId channel : String) (servers0 : List String) : Option StatusReply :=
  (status_resolve doc backend authorId servers0).bind (fun r =>
    let servers := r.1
    let autofilled := r.2
    if 1 < servers.length then
      (perm_check doc backend authorId "status").map (fun auth =>
        let out := targets_loop (status_target auth backend authorId channel autofilled) servers
        StatusReply.mk "Server Statuses" out.1 out.2)
    else
      match servers with
      | [] => none
      | hd :: _ =>
        (perm_check doc backend authorId "status").map (fun auth =>
          let out := targets_loop
            (status_detail_target auth backend authorId channel autofilled) servers
          StatusReply.mk (hd ++ " Detailed Status Report") out.1 out.2))

end Bot

namespace Bot

/-- **C3 (counterexample).** The claim says every target-scoped command
autofills an empty requested list to `authorized_targets`; but `restart`
has no autofill: invoked with no targets by `"7"`, whose authorized
restart set is `["alpha"]`, its loop processes nothing — no field for
`"alpha"`, no backend call, no log — instead of the claimed expansion. -/
theorem restart_no_autofill_cex :
    restart_cmd
        (PermissionDocument.mk ["1"] [ServerEntry.mk "alpha" [("restart", ["7"])]])
        (DockerBackend.mk []) "7" "general" [] = some ([], []) ∧
    perm_check
        (PermissionDocument.mk ["1"] [ServerEntry.mk "alpha" [("restart", ["7"])]])
        (DockerBackend.mk []) "7" "restart" = some ["alpha"] := by
  refine ⟨rfl, by decide⟩

/-- **C3 (amended).** Only `status` autofills: an empty target list
becomes `perm_check` with `autofilled = true` (a non-empty list passes
through with `autofilled = false`), and an autofilled target never
produces a denial log entry; `restart`, `kill` and `start` process the
requested list unchanged, so an empty list yields an empty reply. -/
theorem autofill_only_status (doc : PermissionDocument) (backend : DockerBackend)
    (authorId channel : String) :
    status_resolve doc backend authorId []
      = (perm_check doc backend authorId "status").map (fun a => (a, true)) ∧
    (∀ (s : String) (rest : List String),
      status_resolve doc backend authorId (s :: rest) = some (s :: rest, false)) ∧
    (∀ (auth : List String) (t : String),
      (status_target auth backend authorId channel true t).2 = [] ∧
      (status_detail_target auth backend authorId channel true t).2 = []) ∧
    restart_cmd doc backend authorId channel [] = some ([], []) ∧
    kill_cmd doc backend authorId channel [] = some ([], []) ∧
    start_cmd doc backend authorId channel [] = some ([], []) := by
  refine ⟨by simp [status_resolve], fun s rest => by simp [status_resolve], ?_, rfl, rfl, rfl⟩
  intro auth t
  constructor
  · unfold status_target
    split
    · split <;> rfl
    · rfl
  · unfold status_detail_target
    split
    · split
      · split <;> rfl
      · rfl
    · rfl

/-- **C5.** An explicitly requested (non-autofilled) unauthorized target
yields the field value "Not Found/Invalid Name" together with one
FORBIDDEN audit entry, in `restart` and in `status`; and that field value
is exactly what an authorized request for a backend-unknown target yields,
so the reply does not reveal whether the target exists. -/
theorem denial_indistinguishable_from_not_found (auth : List String)
    (backend : DockerBackend) (authorId channel target : String)
    (hna : target ∉ auth) :
    target_step "restart" (fun _ => "Restart Sent") auth backend authorId channel target
      = ([Field.mk target "Not Found/Invalid Name"],
         [log_unauthorized "restart" authorId channel [target]]) ∧
    status_target auth backend authorId channel false target
      = ([Field.mk target "Not Found/Invalid Name"],
         [log_unauthorized "status" authorId channel [target]]) ∧
    ∀ (auth2 : List String) (b2 : DockerBackend),
      target ∈ auth2 → b2.get target = none →
      (target_step "restart" (fun _ => "Restart Sent") auth2 b2 authorId channel target).1
        = [Field.mk target "Not Found/Invalid Name"] ∧
      (status_target auth2 b2 authorId channel false target).1
        = [Field.mk target "Not Found/Invalid Name"] := by
  refine ⟨by simp [target_step, hna], by simp [status_target, hna], ?_⟩
  intro auth2 b2 hmem hget
  exact ⟨by simp [target_step, hmem, hget], by simp [status_target, hmem, hget]⟩

/-- Witness for C5: `"omega"` is not in the authorized set `["alpha"]`, so
its restart outcome is the denial; and for the authorized `"alpha"` absent
from an empty backend the outcome text is identical. -/
theorem denial_indistinguishable_from_not_found_witness :
    target_step "restart" (fun _ => "Restart Sent") ["alpha"] (DockerBackend.mk [])
        "7" "general" "omega"
      = ([Field.mk "omega" "Not Found/Invalid Name"],
         [log_unauthorized "restart" "7" "general" ["omega"]]) ∧
    (target_step "restart" (fun _ => "Restart Sent") ["omega"] (DockerBackend.mk [])
        "7" "general" "omega").1
      = [Field.mk "omega" "Not Found/Invalid Name"] := by
  have h := denial_indistinguishable_from_not_found ["alpha"] (DockerBackend.mk [])
    "7" "general" "omega" (by decide)
  exact ⟨h.1, (h.2.2 ["omega"] (DockerBackend.mk []) (by decide) (by decide)).1⟩

/-- **C6 (counterexample).** The claim says one FORBIDDEN entry carries
the full list of denied targets; but the dispatch loop calls
`log_unauthorized` once per denied target, so a restart of the two
unauthorized targets `"a"`, `"b"` produces two FORBIDDEN entries, each
naming a single target, not one entry naming `["a", "b"]`. -/
theorem forbidden_one_entry_per_target_cex :
    restart_cmd (PermissionDocument.mk ["1"] [ServerEntry.mk "srv" [("restart", [])]])
        (DockerBackend.mk []) "7" "general" ["a", "b"]
      = some ([Field.mk "a" "Not Found/Invalid Name",
               Field.mk "b" "Not Found/Invalid Name"],
              [log_unauthorized "restart" "7" "general" ["a"],
               log_unauthorized "restart" "7" "general" ["b"]]) ∧
    [log_unauthorized "restart" "7" "general" ["a"],
     log_unauthorized "restart" "7" "general" ["b"]]
      ≠ [log_unauthorized "restart" "7" "general" ["a", "b"]] := by
  exact ⟨by decide, by decide⟩

/-- **C6 (amended).** Each FORBIDDEN entry records the command name, the
requester identity, the channel and the servers passed to that call; the
dispatch loops call `log_unauthorized` once per denied target, so a
command with several denied targets yields one entry per target, each
naming that single target. -/
theorem forbidden_entry_contents (auth : List String) (backend : DockerBackend)
    (authorId channel : String) (servers : List String)
    (h : ∀ s ∈ servers, s ∉ auth) :
    (targets_loop (target_step "restart" (fun _ => "Restart Sent")
        auth backend authorId channel) servers).2
      = servers.map (fun s => log_unauthorized "restart" authorId channel [s]) ∧
    ∀ (c i ch : String) (ss : List String),
      log_unauthorized c i ch ss = LogEntry.mk "FORBIDDEN" c i ch ss := by
  refine ⟨?_, fun c i ch ss => rfl⟩
  induction servers with
  | nil => rfl
  | cons s rest ih =>
    have hs := h s (by simp)
    have ht := ih (fun t htm => h t (by simp [htm]))
    simp [targets_loop, target_step, hs, ht]

/-- Witness for C6 (amended): both requested targets are denied and the
loop emits one single-target FORBIDDEN entry for each. -/
theorem forbidden_entry_contents_witness :
    (targets_loop (target_step "restart" (fun _ => "Restart Sent")
        [] (DockerBackend.mk []) "7" "general") ["a", "b"]).2
      = [log_unauthorized "restart" "7" "general" ["a"],
         log_unauthorized "restart" "7" "general" ["b"]] := by
  exact (forbidden_entry_contents [] (DockerBackend.mk []) "7" "general" ["a", "b"]
    (by decide)).1

/-- **C10.** A `status` with no requested targets from a requester whose
authorized set is empty autofills to the empty list, falls into the
single-target branch, and dies indexing `servers[0]` (an `IndexError`,
modelled `none`) instead of producing a reply. -/
theorem status_empty_autofill_index_error (doc : PermissionDocument)
    (backend : DockerBackend) (authorId channel : String)
    (h : perm_check doc backend authorId "status" = some []) :
    status_resolve doc backend authorId [] = some ([], true) ∧
    status_cmd doc backend authorId channel [] = none := by
  refine ⟨by simp [status_resolve, h], ?_⟩
  simp [status_cmd, status_resolve, h]

/-- Witness for C10: `"7"` has an empty authorized status set (the only
entry's `"status"` list is empty), and the status command crashes. -/
theorem status_empty_autofill_index_error_witness :
    status_cmd (PermissionDocument.mk ["1"] [ServerEntry.mk "alpha" [("status", [])]])
        (DockerBackend.mk []) "7" "general" [] = none := by
  exact (status_empty_autofill_index_error
    (PermissionDocument.mk ["1"] [ServerEntry.mk "alpha" [("status", [])]])
    (DockerBackend.mk []) "7" "general" (by decide)).2

end Bot

namespace Bot

/-- The state of `permissions.json` on disk: missing, a zero-byte file, a
file that exists but cannot be read (`PermissionError`), a file whose open
fails with another `OSError`, or a file holding a serialized document. -/
inductive DiskFile where
  | missing
  | emptyFile
  | unreadable
  | ioBroken
  | serialized (doc : PermissionDocument)
deriving DecidableEq

/-- The startup load block (bot.py lines 50–69). The result is the
in-memory `json_permissions` (`none` = the Python `None` it was
initialized to and, on the failure paths, still holds), the file state
afterwards, and whether the process stopped (via `sys.exit()` or an
uncaught exception). `FileNotFoundError` only `touch`es an empty
placeholder — the except branch never assigns `json_permissions`; a
zero-byte file makes `json.load` raise an uncaught `JSONDecodeError`. -/
def load_permissions : DiskFile → Option PermissionDocument × DiskFile × Bool
  | DiskFile.missing => (none, DiskFile.emptyFile, false)
  | DiskFile.emptyFile => (none, DiskFile.emptyFile, true)
  | DiskFile.unreadable => (none, DiskFile.unreadable, false)
  | DiskFile.ioBroken => (none, DiskFile.ioBroken, true)
  | DiskFile.serialized doc => (some doc, DiskFile.serialized doc, false)

/-- `perm_check` as run against the global `json_permissions`: when it is
still `None`, `json_permissions["users"]["admins"]` raises a `TypeError`
(modelled `none`). -/
def perm_check_global (doc : Option PermissionDocument) (backend : DockerBackend)
    (authorId cmd : String) : Option (List String) :=
  match doc with
  | none => none
  | some d => perm_check d backend authorId cmd

/-- **C4 (code bug).** With the permissions file absent at startup the
code does create the zero-byte placeholder, but it never synthesizes the
empty in-memory document the claim (and the code's own "creating default
schema" log line) promises: `json_permissions` stays `None`, so every
subsequent permission check raises instead of operating on an empty
document. -/
theorem load_absent_no_document :
    load_permissions DiskFile.missing = (none, DiskFile.emptyFile, false) ∧
    (load_permissions DiskFile.missing).1
      ≠ some (PermissionDocument.mk [] []) ∧
    ∀ (backend : DockerBackend) (authorId cmd : String),
      perm_check_global (load_permissions DiskFile.missing).1 backend authorId cmd = none := by
  exact ⟨rfl, by decide, fun backend authorId cmd => rfl⟩

end Bot

namespace Bot

/-- Accumulate decimal digits; any non-digit character fails. -/
def digitsVal (acc : Nat) : List Char → Option Nat
  | [] => some acc
  | c :: cs =>
    if c.isDigit then digitsVal (10 * acc + (c.toNat - 48)) cs else none

/-- A non-empty all-digit run, else failure. -/
def digitsCore : List Char → Option Nat
  | [] => none
  | c :: cs => digitsVal 0 (c :: cs)

/-- Python `int(s)` on the argument string as delivered by the front end
(optional sign followed by decimal digits): `none` models the
`ValueError` the `get_logs` body catches. -/
def py_int (s : String) : Option Int :=
  match s.data with
  | '-' :: rest => (digitsCore rest).map (fun n => -(n : Int))
  | '+' :: rest => (digitsCore rest).map (fun n => (n : Int))
  | l => (digitsCore l).map (fun n => (n : Int))

/-- The reply of one `get_logs` invocation: the `exec_run` command string
issued to the backend (if any), the text sent back, and audit entries. -/
structure GetLogsReply where
  execCmd : Option String
  sent : Option String
  logs : List LogEntry
deriving DecidableEq

/-- The `get_logs` command body (bot.py lines 311–334): parse the line
count, substituting 10 on `ValueError`; then, if authorized, run
`tail -n{count} logs/latest.log` in the container (an absent container
raises an uncaught `NotFound`, modelled `none`); otherwise log one
FORBIDDEN entry and send nothing. -/
def get_logs_cmd (doc : PermissionDocument) (backend : DockerBackend)
    (authorId channel server numlinesArg : String) : Option GetLogsReply :=
  let n : Int := (py_int numlinesArg).getD 10
  (perm_check doc backend authorId "get_logs").bind (fun auth =>
    if server ∈ auth then
      match backend.get server with
      | some c =>
        let cmdStr := "tail -n" ++ toString n ++ " logs/latest.log"
        some (GetLogsReply.mk (some cmdStr) (some (c.exec cmdStr)) [])
      | none => none
    else
      some (GetLogsReply.mk none none
        [log_unauthorized "get_logs" authorId channel [server]]))

/-- **C9.** When the line-count argument fails integer parsing, `get_logs`
substitutes the default 10 and (for an authorized, existing target) still
issues the backend call `tail -n10 logs/latest.log` rather than rejecting
the command. -/
theorem get_logs_malformed_count_defaults (doc : PermissionDocument)
    (backend : DockerBackend) (authorId channel server numlinesArg : String)
    (auth : List String) (c : Container)
    (hparse : py_int numlinesArg = none)
    (hauth : perm_check doc backend authorId "get_logs" = some auth)
    (hmem : server ∈ auth)
    (hget : backend.get server = some c) :
    get_logs_cmd doc backend authorId channel server numlinesArg
      = some (GetLogsReply.mk (some "tail -n10 logs/latest.log")
          (some (c.exec "tail -n10 logs/latest.log")) []) := by
  simp [get_logs_cmd, hparse, hauth, hmem, hget]
  constructor <;> rfl

/-- Witness for C9: the non-numeric count `"lots"` falls back to 10 and
the tail command is still issued against the running container. -/
theorem get_logs_malformed_count_defaults_witness :
    get_logs_cmd
        (PermissionDocument.mk ["1"] [ServerEntry.mk "alpha" [("get_logs", ["7"])]])
        (DockerBackend.mk
          [Container.mk "alpha" "running" [("tail -n10 logs/latest.log", "log text")]])
        "7" "general" "alpha" "lots"
      = some (GetLogsReply.mk (some "tail -n10 logs/latest.log")
          (some "log text") []) := by
  have h := get_logs_malformed_count_defaults
    (PermissionDocument.mk ["1"] [ServerEntry.mk "alpha" [("get_logs", ["7"])]])
    (DockerBackend.mk
      [Container.mk "alpha" "running" [("tail -n10 logs/latest.log", "log text")]])
    "7" "general" "alpha" "lots" ["alpha"]
    (Container.mk "alpha" "running" [("tail -n10 logs/latest.log", "log text")])
    (by decide) (by decide) (by decide) (by decide)
  simpa [Container.exec] using h

end Bot

namespace Bot

/-- The entry appended on first grant for an unknown target (bot.py
lines 251–263): the conventional default action keys, all empty. -/
def default_entry (target : String) : ServerEntry :=
  ServerEntry.mk target
    [("backup", []), ("cmd", []), ("kill", []), ("list_backups", []),
     ("restart", []), ("restore", []), ("start", []), ("status", []),
     ("stop", []), ("get_logs", [])]

/-- `str(user) if len(ctx.message.mentions) == 0 else
str(ctx.message.mentions[0].id)` (bot.py line 265). -/
def resolve_target_user (user : String) (mentions : List String) : String :=
  match mentions with
  | [] => user
  | m :: _ => m

/-- bot.py lines 250–263: append a default entry when no server of that
name exists yet. -/
def ensure_entry (target : String) (ss : List ServerEntry) : List ServerEntry :=
  if target ∈ ss.map (·.name) then ss else ss ++ [default_entry target]

/-- bot.py lines 268–269: `if perm not in server.keys(): server[perm] = []`
— a fresh key lands at the end, in dict insertion order. -/
def ensure_key (perm : String) (s : ServerEntry) : ServerEntry :=
  if (lookupKey s.perms perm).isSome then s
  else ServerEntry.mk s.name (s.perms ++ [(perm, [])])

/-- Reassign an existing dict key in place, keeping its position. -/
def setKey (ps : List (String × List String)) (k : String)
    (v : List String) : List (String × List String) :=
  ps.map (fun p => if p.1 = k then (k, v) else p)

/-- bot.py lines 268–274, the per-entry mutation: create the key if
absent, then `grant` appends the user if absent and `revoke` filters the
user out if present; anything else leaves the entry alone. -/
def mutate_entry (action perm tu : String) (s : ServerEntry) : ServerEntry :=
  let s1 := ensure_key perm s
  let ids := (lookupKey s1.perms perm).getD []
  if action = "grant" ∧ tu ∉ ids then
    ServerEntry.mk s1.name (setKey s1.perms perm (ids ++ [tu]))
  else if action = "revoke" ∧ tu ∈ ids then
    ServerEntry.mk s1.name (setKey s1.perms perm (ids.filter (fun p => p ≠ tu)))
  else s1

/-- The `permissions` command body (bot.py lines 247–298): admins ensure
the entry exists, resolve the target user (mention over raw string), and
mutate every entry of the target's name, then persist; non-admins get one
FORBIDDEN entry and no mutation. -/
def permissions_cmd (doc : PermissionDocument)
    (authorId action user target perm channel : String)
    (mentions : List String) : PermissionDocument × List LogEntry :=
  if authorId ∈ doc.admins then
    (PermissionDocument.mk doc.admins
      ((ensure_entry target doc.servers).map
        (fun s =>
          if s.name = target then
            mutate_entry action perm (resolve_target_user user mentions) s
          else s)), [])
  else
    (doc, [log_unauthorized "permissions" authorId channel ["PERMISSIONS_FILE"]])

theorem lookupKey_append_right (ps ps' : List (String × List String)) (k : String)
    (h : lookupKey ps k = none) : lookupKey (ps ++ ps') k = lookupKey ps' k := by
  induction ps with
  | nil => rfl
  | cons p rest ih =>
    obtain ⟨a, b⟩ := p
    by_cases hk : a = k
    · simp [lookupKey, hk] at h
    · simp only [lookupKey, List.cons_append, if_neg hk] at h ⊢
      exact ih h

theorem setKey_cons (a : String) (b : List String)
    (rest : List (String × List String)) (k : String) (v : List String) :
    setKey ((a, b) :: rest) k v
      = (if a = k then (k, v) else (a, b)) :: setKey rest k v := rfl

theorem lookupKey_setKey_self (ps : List (String × List String)) (k : String)
    (v : List String) (h : (lookupKey ps k).isSome) :
    lookupKey (setKey ps k v) k = some v := by
  induction ps with
  | nil => simp [lookupKey] at h
  | cons p rest ih =>
    obtain ⟨a, b⟩ := p
    rw [setKey_cons]
    by_cases hk : a = k
    · rw [if_pos hk]
      simp [lookupKey]
    · rw [if_neg hk]
      have h' : (lookupKey rest k).isSome := by simpa [lookupKey, hk] using h
      simpa [lookupKey, hk] using ih h'

theorem mem_of_lookupKey (ps : List (String × List String)) (k : String)
    (v : List String) (h : lookupKey ps k = some v) : (k, v) ∈ ps := by
  induction ps with
  | nil => simp [lookupKey] at h
  | cons p rest ih =>
    obtain ⟨a, b⟩ := p
    by_cases hk : a = k
    · simp only [lookupKey, if_pos hk] at h
      subst hk
      obtain rfl := Option.some_injective _ h
      exact List.mem_cons_self _ _
    · simp only [lookupKey, if_neg hk] at h
      exact List.mem_cons_of_mem _ (ih h)

theorem ensure_key_name (perm : String) (s : ServerEntry) :
    (ensure_key perm s).name = s.name := by
  unfold ensure_key
  split <;> rfl

theorem lookupKey_ensure (perm : String) (s : ServerEntry) :
    lookupKey (ensure_key perm s).perms perm
      = some ((lookupKey s.perms perm).getD []) := by
  unfold ensure_key
  split
  · rename_i h
    obtain ⟨v, hv⟩ := Option.isSome_iff_exists.mp h
    simp [hv]
  · rename_i h
    have hn : lookupKey s.perms perm = none := Option.not_isSome_iff_eq_none.mp h
    simp only [lookupKey_append_right _ _ _ hn, hn]
    simp [lookupKey]

theorem mutate_entry_name (action perm tu : String) (s : ServerEntry) :
    (mutate_entry action perm tu s).name = s.name := by
  simp only [mutate_entry]
  split
  · exact ensure_key_name perm s
  · split
    · exact ensure_key_name perm s
    · exact ensure_key_name perm s

end Bot

namespace Bot

theorem ensure_key_getD (perm : String) (s : ServerEntry) :
    (lookupKey (ensure_key perm s).perms perm).getD []
      = (lookupKey s.perms perm).getD [] := by
  rw [lookupKey_ensure]
  rfl

theorem grant_lookup (perm tu : String) (s : ServerEntry) :
    ∃ ids, lookupKey (mutate_entry "grant" perm tu s).perms perm = some ids ∧ tu ∈ ids := by
  simp only [mutate_entry]
  by_cases hmem : tu ∈ (lookupKey (ensure_key perm s).perms perm).getD []
  · rw [if_neg (by simp [hmem]), if_neg (fun h => absurd h.1 (by decide))]
    exact ⟨(lookupKey s.perms perm).getD [], lookupKey_ensure perm s,
      (ensure_key_getD perm s) ▸ hmem⟩
  · rw [if_pos ⟨trivial, hmem⟩]
    refine ⟨(lookupKey (ensure_key perm s).perms perm).getD [] ++ [tu], ?_, by simp⟩
    exact lookupKey_setKey_self _ _ _ (by rw [lookupKey_ensure]; rfl)

theorem grant_fix (perm tu : String) (s : ServerEntry) (ids : List String)
    (hl : lookupKey s.perms perm = some ids) (hm : tu ∈ ids) :
    mutate_entry "grant" perm tu s = s := by
  have hsome : (lookupKey s.perms perm).isSome := by rw [hl]; rfl
  have hek : ensure_key perm s = s := by unfold ensure_key; rw [if_pos hsome]
  simp only [mutate_entry, hek, hl, Option.getD_some]
  rw [if_neg (by simp [hm]), if_neg (fun h => absurd h.1 (by decide))]

theorem grant_count (perm tu : String) (s : ServerEntry)
    (hnd : ((lookupKey s.perms perm).getD []).Nodup) :
    ((lookupKey (mutate_entry "grant" perm tu s).perms perm).getD []).count tu = 1 := by
  simp only [mutate_entry]
  by_cases hmem : tu ∈ (lookupKey (ensure_key perm s).perms perm).getD []
  · rw [if_neg (by simp [hmem]), if_neg (fun h => absurd h.1 (by decide))]
    rw [ensure_key_getD]
    exact List.count_eq_one_of_mem hnd ((ensure_key_getD perm s) ▸ hmem)
  · rw [if_pos ⟨trivial, hmem⟩]
    show ((lookupKey (setKey (ensure_key perm s).perms perm _) perm).getD []).count tu = 1
    rw [lookupKey_setKey_self _ _ _ (by rw [lookupKey_ensure]; rfl)]
    simp only [Option.getD_some, List.count_append]
    simp [List.count_eq_zero_of_not_mem hmem]

theorem revoke_noop (perm tu : String) (s : ServerEntry)
    (habs : tu ∉ (lookupKey s.perms perm).getD []) :
    mutate_entry "revoke" perm tu s = ensure_key perm s := by
  simp only [mutate_entry]
  rw [if_neg (fun h => absurd h.1 (by decide)),
    if_neg (fun h => habs ((ensure_key_getD perm s) ▸ h.2))]

theorem ensure_entry_of_mem (t : String) (ss : List ServerEntry)
    (h : t ∈ ss.map (·.name)) : ensure_entry t ss = ss := by
  unfold ensure_entry
  rw [if_pos h]

theorem ensure_entry_name_mem (t : String) (ss : List ServerEntry) :
    t ∈ (ensure_entry t ss).map (·.name) := by
  unfold ensure_entry
  split
  · assumption
  · simp [default_entry]

theorem ensure_entry_cases (t : String) (ss : List ServerEntry) (s : ServerEntry)
    (h : s ∈ ensure_entry t ss) : s ∈ ss ∨ s = default_entry t := by
  unfold ensure_entry at h
  split at h
  · exact Or.inl h
  · rcases List.mem_append.mp h with h1 | h2
    · exact Or.inl h1
    · exact Or.inr (by simpa using h2)

theorem values_nil_getD (ps : List (String × List String))
    (hall : ∀ kv ∈ ps, kv.2 = ([] : List String)) (k : String) :
    (lookupKey ps k).getD [] = [] := by
  induction ps with
  | nil => rfl
  | cons p rest ih =>
    obtain ⟨a, b⟩ := p
    have hb : b = [] := hall (a, b) (by simp)
    by_cases hk : a = k
    · simp [lookupKey, hk, hb]
    · simpa [lookupKey, hk] using ih (fun kv hkv => hall kv (by simp [hkv]))

theorem default_entry_getD (t k : String) :
    (lookupKey (default_entry t).perms k).getD [] = [] := by
  exact values_nil_getD _ (by intro kv hkv; fin_cases hkv <;> rfl) k

theorem names_map_mutate (target action perm tu : String) (ss : List ServerEntry) :
    (ss.map (fun s => if s.name = target then mutate_entry action perm tu s else s)).map (·.name)
      = ss.map (·.name) := by
  rw [List.map_map]
  apply List.map_congr_left
  intro s _
  show (if s.name = target then mutate_entry action perm tu s else s).name = s.name
  by_cases h : s.name = target
  · rw [if_pos h, mutate_entry_name]
  · rw [if_neg h]

end Bot

namespace Bot

theorem grant_map_fixed (target perm tu : String) (ss : List ServerEntry) :
    ((ensure_entry target ss).map
        (fun s => if s.name = target then mutate_entry "grant" perm tu s else s)).map
          (fun s => if s.name = target then mutate_entry "grant" perm tu s else s)
      = (ensure_entry target ss).map
          (fun s => if s.name = target then mutate_entry "grant" perm tu s else s) := by
  have hfix : ∀ s ∈ (ensure_entry target ss).map
      (fun s => if s.name = target then mutate_entry "grant" perm tu s else s),
      (if s.name = target then mutate_entry "grant" perm tu s else s) = s := by
    intro s hs
    obtain ⟨s0, _, rfl⟩ := List.mem_map.mp hs
    by_cases h0 : s0.name = target
    · rw [if_pos h0]
      have hname : (mutate_entry "grant" perm tu s0).name = target := by
        rw [mutate_entry_name]; exact h0
      rw [if_pos hname]
      obtain ⟨ids, hl, hm⟩ := grant_lookup perm tu s0
      exact grant_fix perm tu _ ids hl hm
    · rw [if_neg h0, if_neg h0]
  calc ((ensure_entry target ss).map
      (fun s => if s.name = target then mutate_entry "grant" perm tu s else s)).map
        (fun s => if s.name = target then mutate_entry "grant" perm tu s else s)
      = ((ensure_entry target ss).map
          (fun s => if s.name = target then mutate_entry "grant" perm tu s else s)).map id :=
        List.map_congr_left hfix
    _ = _ := List.map_id _

/-- **C7.** Granting the same identity the same permission on the same
target twice is idempotent: the second grant returns the document of the
first unchanged, and (for a document whose identity lists are
duplicate-free) the identity appears exactly once in the target entry's
action list after the first grant. -/
theorem grant_twice_idempotent (doc : PermissionDocument)
    (authorId user target perm channel : String) (mentions : List String)
    (hadmin : authorId ∈ doc.admins)
    (hnd : ∀ s ∈ doc.servers, ∀ kv ∈ s.perms, kv.2.Nodup) :
    (permissions_cmd (permissions_cmd doc authorId "grant" user target perm channel mentions).1
        authorId "grant" user target perm channel mentions).1
      = (permissions_cmd doc authorId "grant" user target perm channel mentions).1 ∧
    ∀ s ∈ (permissions_cmd doc authorId "grant" user target perm channel mentions).1.servers,
      s.name = target →
      ((lookupKey s.perms perm).getD []).count (resolve_target_user user mentions) = 1 := by
  constructor
  · simp only [permissions_cmd, if_pos hadmin]
    have h1 : ensure_entry target
        ((ensure_entry target doc.servers).map
          (fun s => if s.name = target then
            mutate_entry "grant" perm (resolve_target_user user mentions) s else s))
      = (ensure_entry target doc.servers).map
          (fun s => if s.name = target then
            mutate_entry "grant" perm (resolve_target_user user mentions) s else s) := by
      apply ensure_entry_of_mem
      rw [names_map_mutate]
      exact ensure_entry_name_mem target doc.servers
    rw [h1, grant_map_fixed]
  · intro s hs hname
    simp only [permissions_cmd, if_pos hadmin] at hs
    obtain ⟨s0, hs0, rfl⟩ := List.mem_map.mp hs
    by_cases h0 : s0.name = target
    · rw [if_pos h0]
      apply grant_count
      rcases ensure_entry_cases target doc.servers s0 hs0 with hin | hdef
      · cases hlk : lookupKey s0.perms perm with
        | none => simp
        | some ids =>
          have := hnd s0 hin (perm, ids) (mem_of_lookupKey _ _ _ hlk)
          simpa [hlk] using this
      · rw [hdef, default_entry_getD]
        exact List.nodup_nil
    · rw [if_neg h0] at hname
      exact absurd hname h0

/-- Witness for C7: the admin `"1"` grants `"7"` restart on the fresh
target `"alpha"` twice; the second grant changes nothing and `"7"` is
listed exactly once. -/
theorem grant_twice_idempotent_witness :
    (permissions_cmd
        (permissions_cmd (PermissionDocument.mk ["1"] []) "1" "grant" "7" "alpha"
          "restart" "x" []).1 "1" "grant" "7" "alpha" "restart" "x" []).1
      = (permissions_cmd (PermissionDocument.mk ["1"] []) "1" "grant" "7" "alpha"
          "restart" "x" []).1 := by
  exact (grant_twice_idempotent (PermissionDocument.mk ["1"] []) "1" "7" "alpha"
    "restart" "x" [] (by decide) (by decide)).1

end Bot

namespace Bot

/-- **C8.** Revoking an identity that is absent from the target's action
list changes nothing except what the command had to create anyway: the
result is exactly the original document with the server entry ensured and
the action key ensured; in particular, when the entry and its key already
exist, the document is identical before and after. -/
theorem revoke_absent_frame (doc : PermissionDocument)
    (authorId user target perm channel : String) (mentions : List String)
    (hadmin : authorId ∈ doc.admins)
    (habs : ∀ s ∈ doc.servers, s.name = target →
      resolve_target_user user mentions ∉ (lookupKey s.perms perm).getD []) :
    (permissions_cmd doc authorId "revoke" user target perm channel mentions).1
      = PermissionDocument.mk doc.admins
          ((ensure_entry target doc.servers).map
            (fun s => if s.name = target then ensure_key perm s else s)) ∧
    ((target ∈ doc.servers.map (·.name) ∧
        ∀ s ∈ doc.servers, s.name = target → (lookupKey s.perms perm).isSome) →
      (permissions_cmd doc authorId "revoke" user target perm channel mentions).1 = doc) := by
  have hmap : (ensure_entry target doc.servers).map
      (fun s => if s.name = target then
        mutate_entry "revoke" perm (resolve_target_user user mentions) s else s)
    = (ensure_entry target doc.servers).map
        (fun s => if s.name = target then ensure_key perm s else s) := by
    apply List.map_congr_left
    intro s hs
    by_cases h0 : s.name = target
    · rw [if_pos h0, if_pos h0]
      apply revoke_noop
      rcases ensure_entry_cases target doc.servers s hs with hin | hdef
      · exact habs s hin h0
      · rw [hdef, default_entry_getD]
        exact List.not_mem_nil _
    · rw [if_neg h0, if_neg h0]
  constructor
  · simp only [permissions_cmd, if_pos hadmin]
    rw [hmap]
  · rintro ⟨h1, h2⟩
    simp only [permissions_cmd, if_pos hadmin]
    rw [hmap, ensure_entry_of_mem target doc.servers h1]
    have hid : doc.servers.map (fun s => if s.name = target then ensure_key perm s else s)
        = doc.servers := by
      calc doc.servers.map (fun s => if s.name = target then ensure_key perm s else s)
          = doc.servers.map id := by
            apply List.map_congr_left
            intro s hs
            by_cases h0 : s.name = target
            · rw [if_pos h0]
              show ensure_key perm s = s
              unfold ensure_key
              rw [if_pos (h2 s hs h0)]
            · rw [if_neg h0]
              rfl
        _ = doc.servers := List.map_id _
    rw [hid]

/-- Witness for C8: revoking the absent `"7"` from `alpha`'s existing
`restart` list (holding only `"9"`) leaves the document identical. -/
theorem revoke_absent_frame_witness :
    (permissions_cmd
        (PermissionDocument.mk ["1"] [ServerEntry.mk "alpha" [("restart", ["9"])]])
        "1" "revoke" "7" "alpha" "restart" "x" []).1
      = PermissionDocument.mk ["1"] [ServerEntry.mk "alpha" [("restart", ["9"])]] := by
  exact (revoke_absent_frame
    (PermissionDocument.mk ["1"] [ServerEntry.mk "alpha" [("restart", ["9"])]])
    "1" "7" "alpha" "restart" "x" [] (by decide) (by decide)).2 ⟨by decide, by decide⟩

end Bot
